import Mathlib

/-!
# Verification of the Scrapouille batch-orchestration core

Shallow embedding of the concurrency/caching/fallback/metrics core of the
repository (`src/scraper/batch.py`, `fallback.py`, `cache.py`, `metrics.py`,
`models.py`) together with proofs of the specification claims about it.

Modelling conventions:
* Python dicts returned by the extractor are modelled as association lists
  (`Data`); Python `None` is `Option.none`; a raised exception is
  `Except.error msg`.
* Wall-clock readings (`time.time()` differences) are opaque naturals supplied
  by the environment.
* The sha256-prefix fingerprints used for cache keys and prompt hashes are
  abstracted as injective, i.e. the key is the hashed tuple itself.
-/

namespace Scrapouille

/-- A structured extraction result (a Python dict). `[]` models the empty
dict `{}`, which is falsy in Python. -/
abbrev Data := List (String × String)

/-- Outcome of one `scraper.run()` call: `.error e` models a raised exception
with message `e`, `.ok none` models Python `None`, `.ok (some d)` a dict. -/
abbrev RunOutcome := Except String (Option Data)

/-! ## `scraper/fallback.py` -/

/-- `ModelConfig` dataclass from `scraper/fallback.py`. -/
structure ModelConfig where
  name : String
  provider : String := "ollama"
  base_url : String := "http://localhost:11434"
  temperature : Int := 0
  format : String := "json"
deriving DecidableEq, Repr

/-- `DEFAULT_FALLBACK_CHAIN` from `scraper/fallback.py`. -/
def DEFAULT_FALLBACK_CHAIN : List ModelConfig :=
  [{ name := "qwen2.5-coder:7b" }, { name := "llama3.1" }, { name := "deepseek-coder-v2" }]

/-- The external extractor: what `scraper_class(prompt, source, config).run()`
does for a given model configuration (prompt, source and caller overrides are
fixed for one `execute_with_fallback` call). -/
abbrev Extractor := ModelConfig → RunOutcome

/-- `ModelFallbackExecutor.__init__`: `self.fallback_chain = fallback_chain or
DEFAULT_FALLBACK_CHAIN` — Python truthiness, so both `None` and the empty list
are replaced by the default chain. -/
def initFallbackChain : Option (List ModelConfig) → List ModelConfig
  | none => DEFAULT_FALLBACK_CHAIN
  | some [] => DEFAULT_FALLBACK_CHAIN
  | some (c :: cs) => c :: cs

/-- The `for attempt, model_config in enumerate(self.fallback_chain, start=1)`
loop of `execute_with_fallback`. `total` is `len(self.fallback_chain)` (used in
the aggregate error), `attempt` the 1-based attempt counter, `lastErr` the
string of `last_exception` so far (initially `str(None) = "None"`; an empty or
`None` result raises `ValueError("Empty result from scraper")`, caught by the
same handler). Also returns the names of the models actually invoked, in
order. -/
def fallbackGo (run : Extractor) (total : Nat) :
    List ModelConfig → Nat → String → Except String (Data × String × Nat) × List String
  | [], _, lastErr =>
    (.error ("All " ++ toString total ++ " models failed. Last error: " ++ lastErr), [])
  | c :: rest, attempt, _ =>
    match run c with
    | .error e =>
      let out := fallbackGo run total rest (attempt + 1) e
      (out.1, c.name :: out.2)
    | .ok none =>
      let out := fallbackGo run total rest (attempt + 1) "Empty result from scraper"
      (out.1, c.name :: out.2)
    | .ok (some d) =>
      if d.isEmpty then
        let out := fallbackGo run total rest (attempt + 1) "Empty result from scraper"
        (out.1, c.name :: out.2)
      else
        (.ok (d, c.name, attempt), [c.name])

/-- `ModelFallbackExecutor.execute_with_fallback` (on an executor whose
`self.fallback_chain` is `chain`): result plus the list of models invoked. -/
def execute_with_fallback (run : Extractor) (chain : List ModelConfig) :
    Except String (Data × String × Nat) × List String :=
  fallbackGo run chain.length chain 1 "None"

/-- `ModelFallbackExecutor.get_available_models`. -/
def get_available_models (chain : List ModelConfig) : List String :=
  chain.map (·.name)

/-- One attempt of the chain counts as failed: the extractor raised, returned
`None`, or returned an empty dict (`if not result or result == {}`). -/
def attemptFails (run : Extractor) (c : ModelConfig) : Prop :=
  match run c with
  | .error _ => True
  | .ok none => True
  | .ok (some d) => d.isEmpty = true

instance (run : Extractor) (c : ModelConfig) : Decidable (attemptFails run c) := by
  unfold attemptFails
  rcases run c with e | (_ | d)
  · exact isTrue trivial
  · exact isTrue trivial
  · exact inferInstanceAs (Decidable (_ = true))

/-- The string `str(last_exception)` contributed by a failed attempt. -/
def failMsg (o : RunOutcome) : String :=
  match o with
  | .error e => e
  | .ok _ => "Empty result from scraper"

/-! ## `scraper/cache.py` -/

/-- A cache key as produced by `ScraperCache._make_key`: the sorted-key JSON
serialization of `{'url': url, 'prompt': prompt, 'model': model,
'schema': schema}` (the two kwargs the batch processor passes). The
`sha256(...)[:16]` digest is abstracted as an injective fingerprint, so the key
is represented by the tuple itself. -/
structure CacheKey where
  url : String
  prompt : String
  model : String
  schema : String
deriving DecidableEq, BEq, Repr

/-- `ScraperCache._make_key` with the batch processor's kwargs. -/
def make_key (url prompt model schema : String) : CacheKey :=
  { url := url, prompt := prompt, model := model, schema := schema }

/-- The state of a `ScraperCache`: the `enabled` flag and the Redis keyspace
(restricted to `scrape:*` keys), most recent write first. -/
structure CacheState where
  enabled : Bool
  store : List (CacheKey × Data)
deriving DecidableEq, Repr

/-- Redis `GET` on the modelled keyspace (newest binding wins). -/
def storeLookup : List (CacheKey × Data) → CacheKey → Option Data
  | [], _ => none
  | (k, v) :: rest, key => if k = key then some v else storeLookup rest key

/-- `ScraperCache.get`: `None` when disabled, otherwise the stored value (the
store lookup; Redis failures degrade to `None` and are not modelled further). -/
def cacheGet (c : CacheState) (url prompt model schema : String) : Option Data :=
  if c.enabled then storeLookup c.store (make_key url prompt model schema) else none

/-- `ScraperCache.set`: no-op returning `False` when disabled, otherwise
overwrites the key (newest binding first) and returns `True`. -/
def cacheSet (c : CacheState) (url prompt model schema : String) (d : Data) :
    CacheState × Bool :=
  if c.enabled then
    ({ c with store := (make_key url prompt model schema, d) :: c.store }, true)
  else (c, false)

/-! ## `scraper/models.py` -/

/-- The `SCHEMAS` registry abstracted: `none` for `"none"` and unrecognized
names, otherwise the pydantic `schema_class(**data)` + `model_dump()` step,
which either returns a normalized dict or raises. -/
abbrev SchemaTable := String → Option (Option Data → Except String Data)

/-- `validate_data(data, schema_name)` from `scraper/models.py`: pass-through
for `"none"`/unknown schemas; otherwise every exception from the schema class
is caught and reported as `(False, None, str(e))`. -/
def validate_data (schemas : SchemaTable) (data : Option Data) (schema_name : String) :
    Bool × Option Data × Option String :=
  match schemas schema_name with
  | none => (true, data, none)
  | some f =>
    match f data with
    | .ok v => (true, some v, none)
    | .error e => (false, none, some e)

/-! ## `scraper/metrics.py` -/

/-- A row of the `scrapes` table (`ScrapeMetric` dataclass). Timestamps are
naturals ordered like the ISO strings the code stores; `prompt_hash` keeps the
prompt itself (the sha256 prefix is abstracted as injective). -/
structure ScrapeMetric where
  timestamp : Nat := 0
  url : String := ""
  prompt_hash : String := ""
  model : String := ""
  execution_time_seconds : Nat := 0
  token_count : Option Int := none
  retry_count : Nat := 0
  fallback_attempts : Nat := 1
  cached : Bool := false
  validation_passed : Bool := true
  schema_used : String := ""
  error : Option String := none
deriving DecidableEq, Repr

/-- SQL `AVG` over a window: `NULL` when there is no (non-`NULL`) input. -/
def sqlAvg (xs : List Nat) : Option ℚ :=
  if xs.isEmpty then none else some ((xs.map fun x => (x : ℚ)).sum / xs.length)

/-- SQL `SUM` over a window: `NULL` when aggregating zero rows. -/
def sqlSum (xs : List Nat) : Option Nat :=
  if xs.isEmpty then none else some xs.sum

/-- The dict returned by `MetricsDB.get_stats`. `none` models SQL `NULL`
(Python `None`). -/
structure MetricsStats where
  total_scrapes : Nat
  avg_time : Option ℚ
  cache_hits : Option Nat
  errors : Option Nat
  validation_failures : Option Nat
  total_retries : Option Nat
  avg_tokens : Option ℚ
  cache_hit_rate : ℚ
  error_rate : ℚ
  model_usage : List (String × Nat)
deriving DecidableEq, Repr

/-- `MetricsDB.get_stats(days)` over table contents `rows`, with
`cutoff = (datetime.now() - timedelta(days=days)).isoformat()`: filters
`timestamp >= cutoff`, then computes the SQL aggregates.
`SUM(CASE WHEN ...)`-style counts are `NULL` over an empty window; the two
rates divide only when `total_scrapes > 0`, else `0`. The `ORDER BY count DESC`
of the model histogram is abstracted (entries in first-seen order). -/
def get_stats (rows : List ScrapeMetric) (cutoff : Nat) : MetricsStats :=
  let w := rows.filter fun r => cutoff ≤ r.timestamp
  let total := w.length
  let cache_hits := sqlSum (w.map fun r => if r.cached then 1 else 0)
  let errors := sqlSum (w.map fun r => if r.error.isSome then 1 else 0)
  { total_scrapes := total
    avg_time := sqlAvg (w.map (·.execution_time_seconds))
    cache_hits := cache_hits
    errors := errors
    validation_failures := sqlSum (w.map fun r => if r.validation_passed then 0 else 1)
    total_retries := sqlSum (w.map (·.retry_count))
    avg_tokens :=
      let toks := w.filterMap (·.token_count)
      if toks.isEmpty then none else some ((toks.map fun x => (x : ℚ)).sum / toks.length)
    cache_hit_rate :=
      if 0 < total then ((cache_hits.getD 0 : ℚ) / total) * 100 else 0
    error_rate :=
      if 0 < total then ((errors.getD 0 : ℚ) / total) * 100 else 0
    model_usage :=
      ((w.map (·.model)).dedup).map fun m => (m, w.countP (·.model == m)) }

/-! ## `scraper/batch.py` -/

/-- `BatchConfig` dataclass. `timeout_per_url` (a float in the source) is kept
as a natural number of seconds. -/
structure BatchConfig where
  max_concurrent : Nat := 5
  timeout_per_url : Nat := 30
  continue_on_error : Bool := true
  use_cache : Bool := true
  use_rate_limiting : Bool := true
  use_fallback : Bool := true
  validate_results : Bool := true
  use_stealth : Bool := false
deriving DecidableEq, Repr

/-- `BatchResult` dataclass (the `timestamp` field is subsumed by
`execution_time`'s clock abstraction and omitted). -/
structure BatchResult where
  url : String
  index : Nat
  success : Bool := false
  data : Option Data := none
  error : Option String := none
  execution_time : Nat := 0
  model_used : Option String := none
  fallback_attempts : Nat := 0
  cached : Bool := false
  validation_passed : Option Bool := none
deriving DecidableEq, Repr

/-- Observable side effects of one per-item pipeline, in program order.
`extractCall` is one `scraper.run()` invocation; `progress` one invocation of
the caller's progress callback with its three arguments. -/
inductive Event
  | extractCall (model : String)
  | rateWait
  | cacheWrite (key : CacheKey)
  | metricLog (row : ScrapeMetric)
  | progress (completed total : Nat) (url : String)
deriving DecidableEq, Repr

/-- The environment one pipeline runs against: the external extractor (for the
fallback path and, as `direct`, for the `use_fallback=False` path), the schema
registry, whether `MetricsDB.log_scrape` raises (`some msg`), whether
`asyncio.wait_for` hits `timeout_per_url` for this item, and the wall-clock
reading used for the `time.time() - start_time` assignments. -/
structure ScrapeEnv where
  extract : Extractor
  direct : RunOutcome
  schemas : SchemaTable
  metricsFail : Option String := none
  timesOut : Bool := false
  now : Nat := 0

/-- `self.fallback_chain[0].name if self.fallback_chain else 'unknown'`. -/
def cacheKeyModel : List ModelConfig → String
  | [] => "unknown"
  | c :: _ => c.name

/-- Python `schema_name or 'none'` (`None` and `""` are falsy). -/
def schemaOrNone : Option String → String
  | none => "none"
  | some s => if s == "" then "none" else s

/-- Python `schema_name or ''`. -/
def schemaOrEmpty : Option String → String
  | none => ""
  | some s => s

/-- Python truthiness of `schema_name` in `if schema_name and ...`. -/
def schemaTruthy : Option String → Bool
  | none => false
  | some s => !(s == "")

/-- Python truthiness of `result.data` in `... and result.data`. -/
def dataTruthy : Option Data → Bool
  | none => false
  | some d => !d.isEmpty

/-- The row `MetricsDB.log_scrape` inserts for the call in `_scrape_single`'s
`finally` block (note `error=result.error or ""` always stores a string, so the
column is never `NULL` for rows written by the batch pipeline). -/
def logScrapeRow (now : Nat) (url prompt : String) (r : BatchResult)
    (schema_name : Option String) : ScrapeMetric :=
  { timestamp := now
    url := url
    prompt_hash := prompt
    model := r.model_used.getD "unknown"
    execution_time_seconds := r.execution_time
    token_count := none
    retry_count := 0
    fallback_attempts := r.fallback_attempts
    cached := r.cached
    validation_passed := r.validation_passed.getD true
    schema_used := schemaOrEmpty schema_name
    error := some (r.error.getD "") }

/-- `_scrape_single`'s `finally` block: the unguarded `log_scrape` call, then
the progress callback with `(index + 1, total_urls, url)`. If `log_scrape`
raises, the exception propagates out of the pipeline and the callback is
skipped. -/
def finallyTail (env : ScrapeEnv) (r : BatchResult) (url prompt : String)
    (schema_name : Option String) (index total : Nat) :
    Except String BatchResult × List Event :=
  match env.metricsFail with
  | some m => (.error m, [])
  | none =>
    (.ok r,
     [Event.metricLog (logScrapeRow env.now url prompt r schema_name),
      Event.progress (index + 1) total url])

/-- Step 1 of `_scrape_single`: the cache lookup, as the data it short-circuits
on. `if cached_data:` is a truthiness test, so an empty cached dict behaves
like a miss. -/
def cacheHitCheck (cfg : BatchConfig) (cache : CacheState) (chain : List ModelConfig)
    (url prompt : String) (schema_name : Option String) : Option Data :=
  if cfg.use_cache && cache.enabled then
    match cacheGet cache url prompt (cacheKeyModel chain) (schemaOrNone schema_name) with
    | some d => if d.isEmpty then none else some d
    | none => none
  else none

/-- `str(e)` of the `TypeError` raised by the fallback branch of
`_scrape_single` step 3: `run_in_executor` passes only positional arguments,
and batch.py:244-251 hands `execute_with_fallback` four of them
(`SmartScraperGraph`, `prompt`, the `{"user_prompt", "url"}` dict,
`scraping_config`) against a signature of three positionals plus
`**config_overrides`, so the call fails before any model is attempted. -/
def FALLBACK_CALL_TYPE_ERROR : String :=
  "ModelFallbackExecutor.execute_with_fallback() takes 4 positional arguments but 5 were given"

/-- Step 3 of `_scrape_single`: extraction, with or without the fallback
chain. The fallback branch dispatches `executor.execute_with_fallback` through
`run_in_executor` with a fourth positional argument (`scraping_config`), which
unconditionally raises `TypeError` before any model of the chain is invoked;
the pipeline's `except Exception` handler then records `str(e)`. Only the
`use_fallback=False` branch actually reaches the extractor
(`graph.run()`). Returns `(data, model_used, attempts)` or the raised
exception, plus the extractor invocations performed. -/
def extractStep (env : ScrapeEnv) (cfg : BatchConfig) (chain : List ModelConfig)
    (graphModel : String) : Except String (Option Data × String × Nat) × List Event :=
  if cfg.use_fallback then
    (.error FALLBACK_CALL_TYPE_ERROR, [])
  else
    match env.direct with
    | .ok od => (.ok (od, graphModel, 1), [Event.extractCall graphModel])
    | .error e => (.error e, [Event.extractCall graphModel])

/-- Step 4 of `_scrape_single`: advisory validation (`validate_data` never
raises); on success the payload is replaced by the normalized one, on failure
the raw payload is kept and only `validation_passed` is set. -/
def validateStep (env : ScrapeEnv) (cfg : BatchConfig) (schema_name : Option String)
    (r : BatchResult) : BatchResult :=
  if schemaTruthy schema_name && cfg.validate_results then
    match validate_data env.schemas r.data (schemaOrEmpty schema_name) with
    | (true, vd, _) => { r with validation_passed := some true, data := vd }
    | (false, _, _) => { r with validation_passed := some false }
  else r

/-- Step 5 of `_scrape_single`: the cache write-back, keyed by
`result.model_used` (`m`) rather than the primary model of the chain. -/
def cacheWriteStep (cfg : BatchConfig) (cache : CacheState) (url prompt m : String)
    (schema_name : Option String) (r : BatchResult) : CacheState × List Event :=
  if cfg.use_cache && cache.enabled && dataTruthy r.data then
    match r.data with
    | some d =>
      ((cacheSet cache url prompt m (schemaOrNone schema_name) d).1,
       [Event.cacheWrite (make_key url prompt m (schemaOrNone schema_name))])
    | none => (cache, [])
  else (cache, [])

/-- `AsyncBatchProcessor._scrape_single`, as a pure function of its
environment: returns the pipeline outcome (`.error` when an exception escapes,
which only the `finally`-block metrics write can cause), the cache state after
the pipeline, and the emitted side effects in order. Stealth-header merging
(step 2.5) is pure config plumbing absorbed into the extractor. -/
def scrape_single (env : ScrapeEnv) (cfg : BatchConfig) (chain : List ModelConfig)
    (graphModel : String) (cache : CacheState) (url : String) (index : Nat)
    (prompt : String) (schema_name : Option String) (total_urls : Nat) :
    Except String BatchResult × CacheState × List Event :=
  let result0 : BatchResult := { url := url, index := index }
  match cacheHitCheck cfg cache chain url prompt schema_name with
  | some d =>
    let r : BatchResult :=
      { result0 with success := true, data := some d, cached := true,
                     execution_time := env.now,
                     model_used := some (cacheKeyModel chain) }
    -- the cache-hit branch invokes the callback, then `return result` still
    -- runs the `finally` block (metrics write + a second callback invocation)
    let tail := finallyTail env r url prompt schema_name index total_urls
    (tail.1, cache, Event.progress (index + 1) total_urls url :: tail.2)
  | none =>
    -- Step 2: rate limiting (when enabled, `self.rate_limiter` is never None)
    let evRate : List Event := if cfg.use_rate_limiting then [Event.rateWait] else []
    match extractStep env cfg chain graphModel with
    | (.error e, evE) =>
      -- `except Exception as e` branch
      let r : BatchResult :=
        { result0 with success := false, error := some e, execution_time := env.now }
      let tail := finallyTail env r url prompt schema_name index total_urls
      (tail.1, cache, evRate ++ evE ++ tail.2)
    | (.ok (od, m, a), evE) =>
      let r2 : BatchResult :=
        validateStep env cfg schema_name
          { result0 with data := od, model_used := some m, fallback_attempts := a }
      let wr := cacheWriteStep cfg cache url prompt m schema_name r2
      let r3 : BatchResult := { r2 with success := true, execution_time := env.now }
      let tail := finallyTail env r3 url prompt schema_name index total_urls
      (tail.1, wr.1, evRate ++ evE ++ wr.2 ++ tail.2)

/-- `AsyncBatchProcessor._scrape_with_semaphore` minus the semaphore itself
(modelled separately as a transition system): the `asyncio.wait_for` wrapper
converts a timeout into a fresh failed `BatchResult`. A timeout can only
interrupt the pipeline at one of its two awaits (the rate-limiter wait or the
extractor call), both of which precede every assignment to `result` and every
cache write, so the cancelled pipeline's `finally` block still runs and logs
the untouched result (model `"unknown"`, time `0`) and fires the progress
callback once; if the metrics write raises during this cleanup, that exception
propagates out instead of the timeout. An extractor call the cancellation
leaves running in its `run_in_executor` thread is modelled by the scheduler
(`SemStep.timeoutStrand`), not by this per-item trace. -/
def scrape_with_semaphore (env : ScrapeEnv) (cfg : BatchConfig)
    (chain : List ModelConfig) (graphModel : String) (cache : CacheState)
    (url : String) (index : Nat) (prompt : String) (schema_name : Option String)
    (total_urls : Nat) : Except String BatchResult × CacheState × List Event :=
  if env.timesOut then
    match env.metricsFail with
    | some m => (.error m, cache, [])
    | none =>
      (.ok { url := url, index := index, success := false,
             error := some ("Timeout after " ++ toString cfg.timeout_per_url ++ "s"),
             execution_time := cfg.timeout_per_url },
       cache,
       [Event.metricLog (logScrapeRow env.now url prompt
          { url := url, index := index } schema_name),
        Event.progress (index + 1) total_urls url])
  else
    scrape_single env cfg chain graphModel cache url index prompt schema_name total_urls

/-- `results.sort(key=lambda r: r.index)`. -/
def sortByIndex (rs : List BatchResult) : List BatchResult :=
  rs.insertionSort fun a b => a.index ≤ b.index

/-- `asyncio.gather(*tasks)` without `return_exceptions`: the first raised
exception aborts the batch, otherwise all results in task order. -/
def gatherStrict : List (Except String BatchResult) → Except String (List BatchResult)
  | [] => .ok []
  | .error e :: _ => .error e
  | .ok r :: rest => (gatherStrict rest).map fun rs => r :: rs

/-- The task outcomes of one batch, in task order (`asyncio.gather` returns
them in task order regardless of completion order). Per-item environments and
observed cache states are arbitrary functions of the item position `i` (from
`enumerate(urls)`), which covers every interleaving of the concurrently
running pipelines. -/
def taskOutcomes (envs : Nat → ScrapeEnv) (caches : Nat → CacheState)
    (cfg : BatchConfig) (chain : List ModelConfig) (graphModel : String)
    (urls : List String) (prompt : String) (schema_name : Option String) :
    List (Except String BatchResult) :=
  urls.enum.map fun iu =>
    (scrape_with_semaphore (envs iu.1) cfg chain graphModel (caches iu.1)
      iu.2 iu.1 prompt schema_name urls.length).1

/-- The `for i, result in enumerate(results)` loop of `process_batch` under
`continue_on_error`: exception outcomes are converted to failed
`BatchResult`s for `urls[i]` at index `i`. -/
def convertOutcomes (urls : List String)
    (outcomes : List (Except String BatchResult)) : List BatchResult :=
  (outcomes.zip urls.enum).map fun oiu =>
    match oiu.1 with
    | .ok r => r
    | .error e =>
      { url := oiu.2.2, index := oiu.2.1, success := false,
        error := some e, execution_time := 0 }

/-- `AsyncBatchProcessor.process_batch`: empty-input check, concurrent tasks,
gather (with or without exception conversion), then sort by original index. -/
def process_batch (envs : Nat → ScrapeEnv) (caches : Nat → CacheState)
    (cfg : BatchConfig) (chain : List ModelConfig) (graphModel : String)
    (urls : List String) (prompt : String) (schema_name : Option String) :
    Except String (List BatchResult) :=
  if urls.isEmpty then .error "URLs list cannot be empty"
  else if cfg.continue_on_error then
    .ok (sortByIndex (convertOutcomes urls
      (taskOutcomes envs caches cfg chain graphModel urls prompt schema_name)))
  else
    (gatherStrict
      (taskOutcomes envs caches cfg chain graphModel urls prompt schema_name)).map
      sortByIndex

/-! ## Concurrency model

`asyncio.Semaphore(config.max_concurrent)` guarding
`async with self.semaphore: await asyncio.wait_for(self._scrape_single(...))`.
Each task's body is its pipeline's effect trace, split into atomic segments at
the `await` points; an extractor call spans from its dispatch to the executor
until the executor returns, so it is represented by an enter/exit segment
pair. A scheduler step either lets a waiting task acquire the semaphore (only
when a permit is available), lets a running task execute its next segment,
lets a finished task release its permit, or expires a running task's
`wait_for` deadline. Expiry releases the task's permit (the `async with`
exits once `wait_for` raises), but cancellation cannot stop a `run_in_executor`
call that is already executing in its thread: a task cancelled mid-extract
leaves a *stranded* extractor invocation that stays in flight, without a
permit, until the thread finishes on its own. (Allowing expiry at any point
of the body, not just at the two awaits, is a conservative over-approximation;
the post-cancellation synchronous cleanup emits no extract segments and is
omitted from the scheduler.) -/

/-- One atomic segment of a pipeline body. -/
inductive Seg
  | extractEnter (model : String)
  | extractExit
  | other
deriving DecidableEq, Repr

/-- Expansion of a pipeline's event trace into scheduler segments. -/
def toSegs : List Event → List Seg
  | [] => []
  | Event.extractCall m :: es => Seg.extractEnter m :: Seg.extractExit :: toSegs es
  | _ :: es => Seg.other :: toSegs es

/-- The segment program of item `index` of a batch: everything
`_scrape_with_semaphore` does between acquiring and releasing its permit. -/
def scrapeProgram (env : ScrapeEnv) (cfg : BatchConfig) (chain : List ModelConfig)
    (graphModel : String) (cache : CacheState) (url : String) (index : Nat)
    (prompt : String) (schema_name : Option String) (total_urls : Nat) : List Seg :=
  toSegs (scrape_with_semaphore env cfg chain graphModel cache url index prompt
    schema_name total_urls).2.2

/-- Scheduling state of one task. `stranded`: the task timed out mid-extract
and released its permit, but its extractor call is still running in its
executor thread. -/
inductive TaskPhase
  | queued (prog : List Seg)
  | holding (rest : List Seg)
  | stranded
  | done
deriving DecidableEq, Repr

/-- Global scheduler state: per-task phases (in task order) and the semaphore's
available permit count. -/
structure SemState where
  tasks : List TaskPhase
  avail : Nat
deriving DecidableEq, Repr

/-- Interleaving semantics: any task may move, but `acquire` needs a permit.
`timeoutStrand` is a `wait_for` expiry while the task's extractor call is in
flight: the permit is released yet the executor thread keeps running.
`timeoutDrop` is an expiry at any other point; `strandedEnd` is the stranded
thread eventually returning. -/
inductive SemStep : SemState → SemState → Prop
  | acquire (pre post : List TaskPhase) (p : List Seg) (a : Nat) :
      SemStep ⟨pre ++ TaskPhase.queued p :: post, a + 1⟩
              ⟨pre ++ TaskPhase.holding p :: post, a⟩
  | emit (pre post : List TaskPhase) (s : Seg) (rest : List Seg) (a : Nat) :
      SemStep ⟨pre ++ TaskPhase.holding (s :: rest) :: post, a⟩
              ⟨pre ++ TaskPhase.holding rest :: post, a⟩
  | release (pre post : List TaskPhase) (a : Nat) :
      SemStep ⟨pre ++ TaskPhase.holding [] :: post, a⟩
              ⟨pre ++ TaskPhase.done :: post, a + 1⟩
  | timeoutStrand (pre post : List TaskPhase) (rest : List Seg) (a : Nat) :
      SemStep ⟨pre ++ TaskPhase.holding (Seg.extractExit :: rest) :: post, a⟩
              ⟨pre ++ TaskPhase.stranded :: post, a + 1⟩
  | timeoutDrop (pre post : List TaskPhase) (rest : List Seg) (a : Nat) :
      SemStep ⟨pre ++ TaskPhase.holding rest :: post, a⟩
              ⟨pre ++ TaskPhase.done :: post, a + 1⟩
  | strandedEnd (pre post : List TaskPhase) (a : Nat) :
      SemStep ⟨pre ++ TaskPhase.stranded :: post, a⟩
              ⟨pre ++ TaskPhase.done :: post, a⟩

/-- Start state of a batch run: all tasks created, semaphore at
`max_concurrent`. -/
def initState (k : Nat) (progs : List (List Seg)) : SemState :=
  { tasks := progs.map TaskPhase.queued, avail := k }

/-- States a batch run can be in. -/
def Reachable (k : Nat) (progs : List (List Seg)) (s : SemState) : Prop :=
  Relation.ReflTransGen SemStep (initState k progs) s

/-- A task past the semaphore-acquire point and before its release. -/
def isHolding : TaskPhase → Bool
  | .holding _ => true
  | _ => false

/-- A task whose extractor call is currently in flight (dispatched, executor
not yet returned) — whether it still holds a permit or was cancelled and
stranded. -/
def isExtracting : TaskPhase → Bool
  | .holding (Seg.extractExit :: _) => true
  | .stranded => true
  | _ => false

/-- A timed-out task whose extractor thread is still running. -/
def isStranded : TaskPhase → Bool
  | .stranded => true
  | _ => false

/-- Number of pipelines currently holding a concurrency slot. -/
def holdingCount (s : SemState) : Nat :=
  s.tasks.countP isHolding

/-- Number of concurrently in-flight extractor invocations. -/
def extractingCount (s : SemState) : Nat :=
  s.tasks.countP isExtracting

/-- Number of stranded extractor threads (timed-out pipelines whose extractor
call is still running). -/
def strandedCount (s : SemState) : Nat :=
  s.tasks.countP isStranded

/-! ## Theorems about the fallback executor (C6, C7, C10) -/

/-- `last_exception` accumulated by a traversal of `chain` starting from
`init`, assuming every attempt fails. -/
def lastFailureFrom (run : Extractor) (init : String) (chain : List ModelConfig) : String :=
  chain.foldl (fun acc c => (fun _ => failMsg (run c)) acc) init

/-- The value of `str(last_exception)` after a full traversal of `chain` in
which every attempt failed (`"None"` for an empty chain). -/
def lastFailure (run : Extractor) (chain : List ModelConfig) : String :=
  lastFailureFrom run "None" chain

/-! ### Concrete scenario instances used by witnesses and counterexamples -/

/-- Chain `[alpha (fails), beta (succeeds)]` for the C6 scenario. -/
def c6chain : List ModelConfig := [{ name := "alpha" }, { name := "beta" }]

/-- Extractor failing on `alpha` and returning a non-empty dict on `beta`. -/
def c6run : Extractor := fun c =>
  if c.name == "alpha" then .error "boom" else .ok (some [("title", "x")])

/-- Chain `[alpha (fails), beta (fails)]` for the C7 scenario. -/
def c7chain : List ModelConfig := [{ name := "alpha" }, { name := "beta" }]

/-- Extractor failing on every model. -/
def c7run : Extractor := fun _ => .error "boom"

/-- Environment for the C2 witness: a single always-succeeding item. -/
def c2env : ScrapeEnv :=
  { extract := fun _ => .ok (some [("title", "x")])
    direct := .ok (some [("title", "x")])
    schemas := fun _ => none }

/-- Configuration with fallback disabled (`use_fallback=False` direct path);
cache and rate limiting off to isolate the direct scrape. -/
def c4cfg : BatchConfig :=
  { use_fallback := false, use_cache := false, use_rate_limiting := false }

/-- Environment whose direct `graph.run()` returns Python `None`. -/
def c4env : ScrapeEnv :=
  { extract := fun _ => .error "unused"
    direct := .ok none
    schemas := fun _ => none }

/-- Single-model chain used by the cache-hit and metrics scenarios. -/
def m1chain : List ModelConfig := [{ name := "m1" }]

/-- A cache already holding the primary-model key for `http://a`. -/
def warmCache : CacheState :=
  { enabled := true
    store := [(make_key "http://a" "p" "m1" "none", [("t", "v")])] }

/-- The progress-callback invocations of a trace, in order, with their
`(completed, total, url)` arguments. -/
def progressEvents (evs : List Event) : List (Nat × Nat × String) :=
  evs.filterMap fun e =>
    match e with
    | .progress c t u => some (c, t, u)
    | _ => none

/-- Recognizer for extractor invocations in a trace. -/
def isExtractCall : Event → Bool
  | .extractCall _ => true
  | _ => false

/-- Environment whose pipeline succeeds but whose metrics write raises. -/
def c8env : ScrapeEnv :=
  { extract := fun _ => .ok (some [("t", "v")])
    direct := .error "unused"
    schemas := fun _ => none
    metricsFail := some "disk full" }

/-- `c8env` with a healthy metrics store. -/
def c8envOk : ScrapeEnv := { c8env with metricsFail := none }

/-- An enabled, initially empty cache. -/
def emptyCache : CacheState := { enabled := true, store := [] }

/-- Configuration taking the `use_fallback=False` direct path — the only path
of `_scrape_single` step 3 whose extractor call is well-formed. -/
def directOnlyCfg : BatchConfig := { use_fallback := false }

/-- The result the `m1chain`/`c2env` pipeline produces on the warm cache
(cache hit). -/
def c4wres : BatchResult :=
  { url := "http://a", index := 0, success := true, data := some [("t", "v")],
    error := none, execution_time := 0, model_used := some "m1",
    fallback_attempts := 0, cached := true, validation_passed := none }

/-- The result the direct path (`directOnlyCfg`, `graph_config` model `"m1"`)
produces on a cold cache under `c2env`. -/
def c5wres : BatchResult :=
  { url := "http://a", index := 0, success := true, data := some [("title", "x")],
    error := none, execution_time := 0, model_used := some "m1",
    fallback_attempts := 1, cached := false, validation_passed := none }

/-- A two-item batch for the stranded-extractor scenario. -/
def c2urls : List String := ["http://a", "http://b"]

/-- Segment programs of the `c2urls` batch pipelines under the direct-path
configuration (one extractor call each). -/
def c2progs : List (List Seg) :=
  c2urls.enum.map fun iu =>
    scrapeProgram c2env c4cfg [] "m1" emptyCache iu.2 iu.1 "p" none
      c2urls.length

/-- The state reached when item 0 timed out mid-extract (stranding its
extractor thread) and item 1 then acquired the freed permit and dispatched its
own extractor call. -/
def c2badState : SemState :=
  { tasks := [TaskPhase.stranded,
              TaskPhase.holding [Seg.extractExit, Seg.other, Seg.other]],
    avail := 0 }

theorem fallbackGo_first_success (run : Extractor) (total : Nat) :
    ∀ (chain : List ModelConfig) (attempt : Nat) (lastErr : String)
      (i : Nat) (hi : i < chain.length) (d : Data),
      (∀ j (hj : j < i), attemptFails run (chain.get ⟨j, hj.trans hi⟩)) →
      run (chain.get ⟨i, hi⟩) = .ok (some d) → d.isEmpty = false →
      fallbackGo run total chain attempt lastErr =
        (.ok (d, (chain.get ⟨i, hi⟩).name, attempt + i),
         (chain.take (i + 1)).map (·.name)) := by
  intro chain
  induction chain with
  | nil => intro _ _ i hi; exact absurd hi (by simp)
  | cons c rest ih =>
    intro attempt lastErr i hi d hfail hok hne
    cases i with
    | zero =>
      simp only [List.get] at hok
      simp [fallbackGo, hok, hne]
    | succ i' =>
      have hc : attemptFails run c := by
        have := hfail 0 (Nat.succ_pos i')
        simpa using this
      have hi' : i' < rest.length := by simpa using hi
      have hfail' : ∀ j (hj : j < i'), attemptFails run (rest.get ⟨j, hj.trans hi'⟩) := by
        intro j hj
        have := hfail (j + 1) (Nat.succ_lt_succ hj)
        simpa using this
      have hok' : run (rest.get ⟨i', hi'⟩) = .ok (some d) := by simpa using hok
      have step := ih (attempt + 1) "dummy" i' hi' d hfail' hok' hne
      unfold attemptFails at hc
      rcases hrc : run c with e | od
      · rw [hrc] at hc
        simp only [fallbackGo, hrc]
        rw [ih (attempt + 1) e i' hi' d hfail' hok' hne]
        simp [List.get_cons_succ, Nat.add_assoc, Nat.add_comm 1 i']
      · rcases od with _ | d0
        · simp only [fallbackGo, hrc]
          rw [ih (attempt + 1) "Empty result from scraper" i' hi' d hfail' hok' hne]
          simp [Nat.add_assoc, Nat.add_comm 1 i']
        · rw [hrc] at hc
          simp only at hc
          simp only [fallbackGo, hrc, hc, if_true]
          rw [ih (attempt + 1) "Empty result from scraper" i' hi' d hfail' hok' hne]
          simp [Nat.add_assoc, Nat.add_comm 1 i']

/-- C6: `execute_with_fallback` tries the chain configurations strictly in
order, treats a thrown error and an empty (or `None`) result alike as failure
of that attempt, and on the first attempt returning a non-empty result it
returns immediately the triple (result, name of that model, 1-based attempt
index), having invoked exactly the first `i + 1` models in order. -/
theorem execute_with_fallback_first_success (run : Extractor)
    (chain : List ModelConfig) (i : Nat) (hi : i < chain.length) (d : Data)
    (hfail : ∀ j (hj : j < i), attemptFails run (chain.get ⟨j, hj.trans hi⟩))
    (hok : run (chain.get ⟨i, hi⟩) = .ok (some d)) (hne : d.isEmpty = false) :
    execute_with_fallback run chain =
      (.ok (d, (chain.get ⟨i, hi⟩).name, i + 1),
       (chain.take (i + 1)).map (·.name)) := by
  have h := fallbackGo_first_success run chain.length chain 1 "None" i hi d hfail hok hne
  rw [execute_with_fallback, h, Nat.add_comm 1 i]

theorem execute_with_fallback_first_success_witness :
    execute_with_fallback c6run c6chain =
      (.ok ([("title", "x")], "beta", 2), ["alpha", "beta"]) := by
  have h := execute_with_fallback_first_success c6run c6chain 1 (by decide)
    [("title", "x")]
    (fun j hj => by
      have hj0 : j = 0 := by omega
      subst hj0
      show attemptFails c6run { name := "alpha" }
      decide)
    (by rfl) (by rfl)
  simpa using h

theorem fallbackGo_all_fail (run : Extractor) (total : Nat) :
    ∀ (chain : List ModelConfig) (attempt : Nat) (lastErr : String),
      (∀ c ∈ chain, attemptFails run c) →
      (fallbackGo run total chain attempt lastErr).1 =
        .error ("All " ++ toString total ++ " models failed. Last error: " ++
          lastFailureFrom run lastErr chain) := by
  intro chain
  induction chain with
  | nil => intro attempt lastErr _; simp [fallbackGo, lastFailureFrom]
  | cons c rest ih =>
    intro attempt lastErr hall
    have hc : attemptFails run c := hall c (by simp)
    have hrest : ∀ x ∈ rest, attemptFails run x := fun x hx => hall x (by simp [hx])
    unfold attemptFails at hc
    rcases hrc : run c with e | od
    · simp only [fallbackGo, hrc]
      rw [ih (attempt + 1) e hrest]
      simp [lastFailureFrom, failMsg, hrc]
    · rcases od with _ | d0
      · simp only [fallbackGo, hrc]
        rw [ih (attempt + 1) "Empty result from scraper" hrest]
        simp [lastFailureFrom, failMsg, hrc]
      · rw [hrc] at hc; simp only at hc
        simp only [fallbackGo, hrc, hc, if_true]
        rw [ih (attempt + 1) "Empty result from scraper" hrest]
        simp [lastFailureFrom, failMsg, hrc]

theorem fallbackGo_isOk_iff (run : Extractor) (total : Nat) :
    ∀ (chain : List ModelConfig) (attempt : Nat) (lastErr : String),
      (fallbackGo run total chain attempt lastErr).1.isOk = true ↔
        ∃ c ∈ chain, ¬ attemptFails run c := by
  intro chain
  induction chain with
  | nil => intro attempt lastErr; simp [fallbackGo, Except.isOk, Except.toBool]
  | cons c rest ih =>
    intro attempt lastErr
    rcases hrc : run c with e | od
    · simp only [fallbackGo, hrc]
      rw [ih (attempt + 1) e]
      constructor
      · rintro ⟨x, hx, hxf⟩; exact ⟨x, by simp [hx], hxf⟩
      · rintro ⟨x, hx, hxf⟩
        rcases List.mem_cons.mp hx with rfl | hx'
        · exact absurd (by unfold attemptFails; rw [hrc]; trivial) hxf
        · exact ⟨x, hx', hxf⟩
    · rcases od with _ | d0
      · simp only [fallbackGo, hrc]
        rw [ih (attempt + 1) "Empty result from scraper"]
        constructor
        · rintro ⟨x, hx, hxf⟩; exact ⟨x, by simp [hx], hxf⟩
        · rintro ⟨x, hx, hxf⟩
          rcases List.mem_cons.mp hx with rfl | hx'
          · exact absurd (by unfold attemptFails; rw [hrc]; trivial) hxf
          · exact ⟨x, hx', hxf⟩
      · by_cases hne : d0.isEmpty = true
        · simp only [fallbackGo, hrc, hne, if_true]
          rw [ih (attempt + 1) "Empty result from scraper"]
          constructor
          · rintro ⟨x, hx, hxf⟩; exact ⟨x, by simp [hx], hxf⟩
          · rintro ⟨x, hx, hxf⟩
            rcases List.mem_cons.mp hx with rfl | hx'
            · exact absurd (by unfold attemptFails; rw [hrc]; exact hne) hxf
            · exact ⟨x, hx', hxf⟩
        · simp only [fallbackGo, hrc, hne, if_false]
          constructor
          · intro _
            refine ⟨c, by simp, ?_⟩
            unfold attemptFails
            rw [hrc]
            simpa using hne
          · intro _; rfl

/-- C7 (amended): `execute_with_fallback` returns normally iff some
configuration in the chain yields a non-empty result; when every configuration
fails it raises an aggregate `RuntimeError` whose message states the chain
length and the final underlying error — but it does not name the individual
models of the chain. -/
theorem execute_with_fallback_error_shape (run : Extractor) (chain : List ModelConfig) :
    ((execute_with_fallback run chain).1.isOk = true ↔
      ∃ c ∈ chain, ¬ attemptFails run c) ∧
    ((∀ c ∈ chain, attemptFails run c) →
      (execute_with_fallback run chain).1 =
        .error ("All " ++ toString chain.length ++ " models failed. Last error: " ++
          lastFailure run chain)) :=
  ⟨fallbackGo_isOk_iff run chain.length chain 1 "None",
   fun hall => fallbackGo_all_fail run chain.length chain 1 "None" hall⟩

theorem execute_with_fallback_error_shape_witness :
    (execute_with_fallback c7run c7chain).1 =
      .error "All 2 models failed. Last error: boom" := by
  have h := (execute_with_fallback_error_shape c7run c7chain).2
    (fun c _ => by unfold attemptFails c7run; trivial)
  simpa [lastFailure, lastFailureFrom, failMsg, c7run, c7chain] using h

/-- C7 counterexample: for the chain `[alpha (fails), beta (fails)]` the
aggregate error message is exactly `"All 2 models failed. Last error: boom"`;
contrary to the claim it names neither `alpha` nor `beta` (neither model name
occurs as a substring of the message). -/
theorem execute_with_fallback_error_names_no_models :
    (execute_with_fallback c7run c7chain).1 =
      .error "All 2 models failed. Last error: boom" ∧
    ¬ ("alpha".data <:+: "All 2 models failed. Last error: boom".data) ∧
    ¬ ("beta".data <:+: "All 2 models failed. Last error: boom".data) := by
  refine ⟨rfl, by decide, by decide⟩

/-- C10 (amended): constructing a `ModelFallbackExecutor` from an empty chain
(or `None`) silently substitutes the three-model `DEFAULT_FALLBACK_CHAIN`: the
executor then behaves exactly as one built from the default chain, reports the
three default model names, and an all-failing call to
`execute_with_fallback` — *invoked correctly* — attempts all three default
models rather than failing with a zero-length-chain error. A batch processor
configured with an empty `fallback_chain`, however, never scrapes with those
models: `_scrape_single`'s fallback invocation passes a fourth positional
argument and raises `TypeError` before any model is attempted. -/
theorem init_empty_chain_uses_default :
    initFallbackChain (some []) = DEFAULT_FALLBACK_CHAIN ∧
    initFallbackChain none = DEFAULT_FALLBACK_CHAIN ∧
    DEFAULT_FALLBACK_CHAIN.length = 3 ∧
    (∀ run : Extractor,
      execute_with_fallback run (initFallbackChain (some [])) =
        execute_with_fallback run DEFAULT_FALLBACK_CHAIN) ∧
    get_available_models (initFallbackChain (some [])) =
      ["qwen2.5-coder:7b", "llama3.1", "deepseek-coder-v2"] ∧
    (execute_with_fallback (fun _ => .error "down") (initFallbackChain (some []))).2 =
      ["qwen2.5-coder:7b", "llama3.1", "deepseek-coder-v2"] ∧
    (∀ (env : ScrapeEnv) (gm : String),
      extractStep env {} [] gm = (.error FALLBACK_CALL_TYPE_ERROR, [])) :=
  ⟨rfl, rfl, rfl, fun _ => rfl, rfl, rfl, fun _ _ => rfl⟩

/-- C10 counterexample (to the claim's batch-processor clause): a batch
pipeline configured with an empty `fallback_chain` does *not* scrape with the
default models the caller never supplied — its extraction step fails with the
positional-argument `TypeError` before any model is attempted, the item comes
back failed, and the pipeline performs zero extractor invocations. -/
theorem batch_empty_chain_never_scrapes :
    (extractStep c2env {} [] "unknown").1 = .error FALLBACK_CALL_TYPE_ERROR ∧
    (extractStep c2env {} [] "unknown").2 = [] ∧
    ((scrape_with_semaphore c2env {} [] "unknown" emptyCache "http://a" 0 "p"
        none 1).1.toOption.map fun r => (r.success, r.error)) =
      some (false, some FALLBACK_CALL_TYPE_ERROR) ∧
    (scrape_with_semaphore c2env {} [] "unknown" emptyCache "http://a" 0 "p"
        none 1).2.2.countP isExtractCall = 0 :=
  ⟨rfl, rfl, rfl, rfl⟩

/-! ## Theorems about the metrics aggregates (C9) -/

/-- C9 counterexample: over an empty window `get_stats` does *not* return all
counts as zero: `total_scrapes` is `0`, but the `SUM`-derived counts are SQL
`NULL` (Python `None`) — e.g. `cache_hits` is `None`, not `0`. -/
theorem get_stats_empty_counts_not_zero :
    (get_stats [] 0).total_scrapes = 0 ∧
    (get_stats [] 0).cache_hits = none ∧
    (get_stats [] 0).cache_hits ≠ some 0 ∧
    (get_stats [] 0).errors = none ∧
    (get_stats [] 0).validation_failures = none ∧
    (get_stats [] 0).total_retries = none :=
  ⟨rfl, rfl, by decide, rfl, rfl, rfl⟩

/-- C9 (amended): over a window containing no metric records, `get_stats`
returns `total_scrapes = 0` and both rates `0`, while the averages *and* the
`SUM`-derived counts (cache hits, errors, validation failures, total retries)
are all `NULL`/`None` — undefined rather than zero. -/
theorem get_stats_empty_window (rows : List ScrapeMetric) (cutoff : Nat)
    (hempty : rows.filter (fun r => cutoff ≤ r.timestamp) = []) :
    get_stats rows cutoff =
      { total_scrapes := 0
        avg_time := none
        cache_hits := none
        errors := none
        validation_failures := none
        total_retries := none
        avg_tokens := none
        cache_hit_rate := 0
        error_rate := 0
        model_usage := [] } := by
  unfold get_stats
  rw [hempty]
  rfl

theorem get_stats_empty_window_witness :
    get_stats [{ timestamp := 3 }] 5 =
      { total_scrapes := 0
        avg_time := none
        cache_hits := none
        errors := none
        validation_failures := none
        total_retries := none
        avg_tokens := none
        cache_hit_rate := 0
        error_rate := 0
        model_usage := [] } :=
  get_stats_empty_window [{ timestamp := 3 }] 5 (by decide)

/-! ## Theorems about the concurrency bound (C2) -/

theorem semStep_avail_holding {s t : SemState} (h : SemStep s t) :
    t.avail + holdingCount t = s.avail + holdingCount s := by
  cases h with
  | acquire pre post p a =>
    simp [holdingCount, List.countP_append, List.countP_cons, isHolding]
    omega
  | emit pre post seg rest a =>
    simp [holdingCount, List.countP_append, List.countP_cons, isHolding]
  | release pre post a =>
    simp [holdingCount, List.countP_append, List.countP_cons, isHolding]
    omega
  | timeoutStrand pre post rest a =>
    simp [holdingCount, List.countP_append, List.countP_cons, isHolding]
    omega
  | timeoutDrop pre post rest a =>
    simp [holdingCount, List.countP_append, List.countP_cons, isHolding]
    omega
  | strandedEnd pre post a =>
    simp [holdingCount, List.countP_append, List.countP_cons, isHolding]

theorem reachable_avail_holding (k : Nat) (progs : List (List Seg)) (s : SemState)
    (h : Reachable k progs s) : s.avail + holdingCount s = k := by
  induction h with
  | refl =>
    simp only [initState, holdingCount, List.countP_map]
    have : (List.countP (isHolding ∘ TaskPhase.queued) progs) = 0 :=
      List.countP_eq_zero.mpr (fun a _ => by simp [isHolding])
    simp [this]
  | tail _ hstep ih =>
    rw [semStep_avail_holding hstep, ih]

theorem countP_extracting_le (ts : List TaskPhase) :
    ts.countP isExtracting ≤ ts.countP isHolding + ts.countP isStranded := by
  induction ts with
  | nil => simp
  | cons t rest ih =>
    simp only [List.countP_cons]
    cases t with
    | queued p => simpa [isExtracting, isHolding, isStranded] using ih
    | stranded =>
      simp only [isExtracting, isHolding, isStranded]
      omega
    | done => simpa [isExtracting, isHolding, isStranded] using ih
    | holding rest' =>
      rcases rest' with _ | ⟨sg, rest''⟩
      · simp only [isExtracting, isHolding, isStranded]
        omega
      · cases sg <;>
          simp only [isExtracting, isHolding, isStranded] <;>
          omega

theorem extracting_le_holding_stranded (s : SemState) :
    extractingCount s ≤ holdingCount s + strandedCount s :=
  countP_extracting_le s.tasks

/-- C2 (amended): for a batch over `urls` with `max_concurrent = k ≥ 1`, in
every state reachable during `process_batch` — the semaphore starts at `k`,
each item's pipeline runs its segment program (`scrapeProgram`) between
acquire and release, and a `wait_for` expiry releases the slot while possibly
stranding the item's in-flight extractor thread — the number of pipelines past
the semaphore-acquire point and not yet past release never exceeds `k`, and
the number of concurrently in-flight extractor invocations never exceeds `k`
plus the number of stranded extractor threads of timed-out items. (It is *not*
bounded by `k` alone: see the stranded-extractor counterexample.) -/
theorem batch_concurrency_bound (k : Nat) (hk : 1 ≤ k)
    (envs : Nat → ScrapeEnv) (caches : Nat → CacheState) (cfg : BatchConfig)
    (chain : List ModelConfig) (graphModel : String) (urls : List String)
    (prompt : String) (schema_name : Option String) (s : SemState)
    (hreach : Reachable k
      (urls.enum.map fun iu =>
        scrapeProgram (envs iu.1) cfg chain graphModel (caches iu.1) iu.2 iu.1
          prompt schema_name urls.length) s) :
    holdingCount s ≤ k ∧ extractingCount s ≤ k + strandedCount s := by
  have hsum := reachable_avail_holding _ _ _ hreach
  have hhold : holdingCount s ≤ k := by omega
  refine ⟨hhold, le_trans (extracting_le_holding_stranded s) ?_⟩
  omega

theorem batch_concurrency_bound_witness :
    1 ≤ 1 ∧
    (holdingCount (initState 1
      (["http://a"].enum.map fun iu =>
        scrapeProgram ((fun _ => c2env) iu.1) {} [] "unknown"
          ((fun _ => CacheState.mk false []) iu.1) iu.2 iu.1 "p" none
          ["http://a"].length)) ≤ 1 ∧
     extractingCount (initState 1
      (["http://a"].enum.map fun iu =>
        scrapeProgram ((fun _ => c2env) iu.1) {} [] "unknown"
          ((fun _ => CacheState.mk false []) iu.1) iu.2 iu.1 "p" none
          ["http://a"].length)) ≤ 1 + strandedCount (initState 1
      (["http://a"].enum.map fun iu =>
        scrapeProgram ((fun _ => c2env) iu.1) {} [] "unknown"
          ((fun _ => CacheState.mk false []) iu.1) iu.2 iu.1 "p" none
          ["http://a"].length))) :=
  ⟨le_refl 1,
   batch_concurrency_bound 1 (le_refl 1) (fun _ => c2env)
     (fun _ => CacheState.mk false []) {} [] "unknown" ["http://a"] "p" none _
     Relation.ReflTransGen.refl⟩

/-- C2 counterexample: with `max_concurrent = 1` and the two direct-path
pipelines of `c2urls`, the schedule "item 0 acquires, dispatches its extractor
call, times out (stranding the call and releasing the slot); item 1 acquires
and dispatches its extractor call" reaches a state with **two** concurrently
in-flight extractor invocations — exceeding `k = 1` — while the slot-holder
count stays within the bound. -/
theorem extractor_bound_exceeded_after_timeout :
    Reachable 1 c2progs c2badState ∧
    holdingCount c2badState = 1 ∧
    extractingCount c2badState = 2 ∧
    ¬ extractingCount c2badState ≤ 1 := by
  refine ⟨?_, rfl, rfl, by decide⟩
  refine Relation.ReflTransGen.head
    (SemStep.acquire [] [TaskPhase.queued [Seg.extractEnter "m1", Seg.extractExit,
      Seg.other, Seg.other]] [Seg.extractEnter "m1", Seg.extractExit, Seg.other,
      Seg.other] 0) ?_
  refine Relation.ReflTransGen.head
    (SemStep.emit [] [TaskPhase.queued [Seg.extractEnter "m1", Seg.extractExit,
      Seg.other, Seg.other]] (Seg.extractEnter "m1") [Seg.extractExit, Seg.other,
      Seg.other] 0) ?_
  refine Relation.ReflTransGen.head
    (SemStep.timeoutStrand [] [TaskPhase.queued [Seg.extractEnter "m1",
      Seg.extractExit, Seg.other, Seg.other]] [Seg.other, Seg.other] 0) ?_
  refine Relation.ReflTransGen.head
    (SemStep.acquire [TaskPhase.stranded] [] [Seg.extractEnter "m1",
      Seg.extractExit, Seg.other, Seg.other] 0) ?_
  refine Relation.ReflTransGen.head
    (SemStep.emit [TaskPhase.stranded] [] (Seg.extractEnter "m1")
      [Seg.extractExit, Seg.other, Seg.other] 0) ?_
  exact Relation.ReflTransGen.refl

/-! ## Per-item pipeline lemmas shared by the batch theorems -/

theorem finallyTail_ok {env : ScrapeEnv} {r : BatchResult} {url prompt : String}
    {sn : Option String} {index total : Nat} {r' : BatchResult}
    (h : (finallyTail env r url prompt sn index total).1 = .ok r') :
    r' = r ∧ env.metricsFail = none := by
  unfold finallyTail at h
  cases hm : env.metricsFail with
  | some m => rw [hm] at h; exact absurd h (by simp)
  | none =>
    rw [hm] at h
    simp only [Except.ok.injEq] at h
    exact ⟨h.symm, rfl⟩

theorem validateStep_fields (env : ScrapeEnv) (cfg : BatchConfig)
    (sn : Option String) (r : BatchResult) :
    (validateStep env cfg sn r).index = r.index ∧
    (validateStep env cfg sn r).url = r.url ∧
    (validateStep env cfg sn r).error = r.error ∧
    (validateStep env cfg sn r).success = r.success ∧
    (validateStep env cfg sn r).cached = r.cached ∧
    (validateStep env cfg sn r).model_used = r.model_used ∧
    (validateStep env cfg sn r).fallback_attempts = r.fallback_attempts := by
  unfold validateStep
  split
  · split <;> simp
  · simp

theorem validate_data_true_isSome {schemas : SchemaTable} {od vd : Option Data}
    {s : String} {e : Option String}
    (hv : validate_data schemas od s = (true, vd, e)) (h : od.isSome = true) :
    vd.isSome = true := by
  unfold validate_data at hv
  split at hv
  · simp only [Prod.mk.injEq] at hv
    rw [← hv.2.1]; exact h
  · split at hv
    · simp only [Prod.mk.injEq] at hv
      rw [← hv.2.1]; rfl
    · simp at hv

theorem validateStep_data_isSome (env : ScrapeEnv) (cfg : BatchConfig)
    (sn : Option String) (r : BatchResult) (h : r.data.isSome = true) :
    (validateStep env cfg sn r).data.isSome = true := by
  unfold validateStep
  split
  · split
    · next vd snd hv =>
        simpa using validate_data_true_isSome hv h
    · simpa using h
  · exact h

theorem scrape_with_semaphore_ok_fields
    {env : ScrapeEnv} {cfg : BatchConfig} {chain : List ModelConfig}
    {gm : String} {cache : CacheState} {url : String} {index : Nat}
    {prompt : String} {sn : Option String} {total : Nat} {r : BatchResult}
    (h : (scrape_with_semaphore env cfg chain gm cache url index prompt sn total).1 =
      .ok r) :
    r.index = index ∧ r.url = url := by
  unfold scrape_with_semaphore at h
  split at h
  · split at h
    · simp at h
    · simp only [Except.ok.injEq] at h
      rw [← h]
      exact ⟨rfl, rfl⟩
  · unfold scrape_single at h
    simp only [] at h
    split at h
    · simp only [] at h
      obtain ⟨hr, -⟩ := finallyTail_ok h
      rw [hr]
      exact ⟨rfl, rfl⟩
    · split at h
      · simp only [] at h
        obtain ⟨hr, -⟩ := finallyTail_ok h
        rw [hr]
        exact ⟨rfl, rfl⟩
      · simp only [] at h
        obtain ⟨hr, -⟩ := finallyTail_ok h
        rw [hr]
        exact ⟨(validateStep_fields _ _ _ _).1, (validateStep_fields _ _ _ _).2.1⟩

/-! ## Theorems about batch ordering (C1) -/

theorem sortByIndex_of_indices (L : List BatchResult)
    (h : ∀ i (hi : i < L.length), (L.get ⟨i, hi⟩).index = i) :
    sortByIndex L = L := by
  apply List.Sorted.insertionSort_eq
  rw [List.Sorted, List.pairwise_iff_get]
  intro i j hij
  rw [h i i.isLt, h j j.isLt]
  exact le_of_lt hij

theorem convertOutcomes_length (envs : Nat → ScrapeEnv) (caches : Nat → CacheState)
    (cfg : BatchConfig) (chain : List ModelConfig) (gm : String)
    (urls : List String) (prompt : String) (sn : Option String) :
    (convertOutcomes urls (taskOutcomes envs caches cfg chain gm urls prompt sn)).length =
      urls.length := by
  simp [convertOutcomes, taskOutcomes, List.enum_length]

theorem convertOutcomes_index (envs : Nat → ScrapeEnv) (caches : Nat → CacheState)
    (cfg : BatchConfig) (chain : List ModelConfig) (gm : String)
    (urls : List String) (prompt : String) (sn : Option String)
    (i : Nat)
    (hi : i < (convertOutcomes urls
      (taskOutcomes envs caches cfg chain gm urls prompt sn)).length) :
    ((convertOutcomes urls
      (taskOutcomes envs caches cfg chain gm urls prompt sn)).get ⟨i, hi⟩).index = i := by
  have hiu : i < urls.length := by
    rwa [convertOutcomes_length] at hi
  rw [List.get_eq_getElem]
  simp only [convertOutcomes, taskOutcomes, List.getElem_map, List.getElem_zip,
    List.getElem_enum]
  rcases hout : (scrape_with_semaphore (envs i) cfg chain gm (caches i)
      urls[i] i prompt sn urls.length).1 with e | r
  · rfl
  · exact (scrape_with_semaphore_ok_fields hout).1

theorem gatherStrict_ok :
    ∀ (l : List (Except String BatchResult)) (rs : List BatchResult),
      gatherStrict l = .ok rs → l = rs.map Except.ok := by
  intro l
  induction l with
  | nil =>
    intro rs h
    simp only [gatherStrict, Except.ok.injEq] at h
    rw [← h]
    rfl
  | cons x t ih =>
    intro rs h
    cases x with
    | error e => simp [gatherStrict] at h
    | ok r =>
      simp only [gatherStrict] at h
      rcases hg : gatherStrict t with e' | rs'
      · rw [hg] at h
        simp [Except.map] at h
      · rw [hg] at h
        simp only [Except.map, Except.ok.injEq] at h
        rw [← h, List.map_cons]
        rw [ih rs' hg]

/-- C1: for every non-empty `urls` list (and any per-item environments, i.e.
any completion interleaving), `process_batch` under `continue_on_error` always
returns a result list, and every returned result list has the same length as
`urls` with the `i`-th returned result carrying `index = i`. -/
theorem process_batch_preserves_order
    (envs : Nat → ScrapeEnv) (caches : Nat → CacheState) (cfg : BatchConfig)
    (chain : List ModelConfig) (gm : String) (urls : List String)
    (prompt : String) (sn : Option String) (hne : urls ≠ []) :
    (cfg.continue_on_error = true →
      ∃ rs, process_batch envs caches cfg chain gm urls prompt sn = .ok rs) ∧
    (∀ rs, process_batch envs caches cfg chain gm urls prompt sn = .ok rs →
      rs.length = urls.length ∧
      ∀ i (hi : i < rs.length), (rs.get ⟨i, hi⟩).index = i) := by
  have hempty : urls.isEmpty = false := by
    cases urls with
    | nil => exact absurd rfl hne
    | cons a l => rfl
  constructor
  · intro hco
    refine ⟨sortByIndex (convertOutcomes urls
      (taskOutcomes envs caches cfg chain gm urls prompt sn)), ?_⟩
    unfold process_batch
    rw [hempty, hco]
    simp
  · intro rs hrs
    unfold process_batch at hrs
    rw [hempty] at hrs
    simp only [Bool.false_eq_true, if_false] at hrs
    cases hco : cfg.continue_on_error with
    | true =>
      rw [hco] at hrs
      simp only [if_true, Except.ok.injEq] at hrs
      rw [sortByIndex_of_indices _
        (convertOutcomes_index envs caches cfg chain gm urls prompt sn)] at hrs
      rw [← hrs]
      exact ⟨convertOutcomes_length envs caches cfg chain gm urls prompt sn,
        convertOutcomes_index envs caches cfg chain gm urls prompt sn⟩
    | false =>
      rw [hco] at hrs
      simp only [Bool.false_eq_true, if_false] at hrs
      rcases hg : gatherStrict (taskOutcomes envs caches cfg chain gm urls prompt sn)
        with e | rs'
      · rw [hg] at hrs
        simp [Except.map] at hrs
      · rw [hg] at hrs
        simp only [Except.map, Except.ok.injEq] at hrs
        have hshape := gatherStrict_ok _ _ hg
        have hlen' : rs'.length = urls.length := by
          have := congrArg List.length hshape
          simpa [taskOutcomes, List.enum_length] using this.symm
        have hidx : ∀ i (hi : i < rs'.length), (rs'.get ⟨i, hi⟩).index = i := by
          intro i hi
          have hiu : i < urls.length := hlen' ▸ hi
          have hib : i < (taskOutcomes envs caches cfg chain gm urls prompt sn).length := by
            simpa [taskOutcomes, List.enum_length] using hiu
          have hel := List.getElem_of_eq hshape hib
          simp only [taskOutcomes, List.getElem_map, List.getElem_enum] at hel
          rw [List.get_eq_getElem]
          exact (scrape_with_semaphore_ok_fields hel).1
        rw [sortByIndex_of_indices _ hidx] at hrs
        rw [← hrs]
        exact ⟨hlen', hidx⟩

theorem process_batch_preserves_order_witness :
    (process_batch (fun _ => c2env) (fun _ => CacheState.mk false []) {} [] "unknown"
      ["u1", "u2"] "p" none).isOk = true := by
  have h := process_batch_preserves_order (fun _ => c2env)
    (fun _ => CacheState.mk false []) {} [] "unknown" ["u1", "u2"] "p" none
    (by simp)
  obtain ⟨rs, hrs⟩ := h.1 rfl
  rw [hrs]
  rfl

/-! ## Theorems about the result invariant (C4) -/

theorem extractStep_fallback_isSome {env : ScrapeEnv} {cfg : BatchConfig}
    {chain : List ModelConfig} {gm : String} {od : Option Data} {m : String}
    {a : Nat} {evE : List Event} (hfb : cfg.use_fallback = true)
    (h : extractStep env cfg chain gm = (.ok (od, m, a), evE)) :
    od.isSome = true := by
  unfold extractStep at h
  rw [hfb] at h
  simp at h

/-- C4 (amended): when `use_fallback` is enabled, every `BatchResult` a
per-item pipeline returns has exactly one outcome field populated: `data`
non-`None` and `error = None` on success, `error` non-`None` and `data = None`
on failure. (With fallback disabled the direct path can return `None`, giving
a successful result with neither field populated.) -/
theorem scrape_result_exactly_one
    (env : ScrapeEnv) (cfg : BatchConfig) (chain : List ModelConfig) (gm : String)
    (cache : CacheState) (url : String) (index : Nat) (prompt : String)
    (sn : Option String) (total : Nat) (r : BatchResult)
    (hfb : cfg.use_fallback = true)
    (h : (scrape_with_semaphore env cfg chain gm cache url index prompt sn total).1 =
      .ok r) :
    (r.success = true → r.data.isSome = true ∧ r.error = none) ∧
    (r.success = false → r.error.isSome = true ∧ r.data = none) := by
  unfold scrape_with_semaphore at h
  split at h
  · split at h
    · simp at h
    · simp only [Except.ok.injEq] at h
      rw [← h]
      exact ⟨fun hs => absurd hs (by simp), fun _ => ⟨rfl, rfl⟩⟩
  · unfold scrape_single at h
    simp only [] at h
    split at h
    · simp only [] at h
      obtain ⟨hr, -⟩ := finallyTail_ok h
      rw [hr]
      exact ⟨fun _ => ⟨rfl, rfl⟩, fun hs => absurd hs (by simp)⟩
    · split at h
      · simp only [] at h
        obtain ⟨hr, -⟩ := finallyTail_ok h
        rw [hr]
        exact ⟨fun hs => absurd hs (by simp), fun _ => ⟨rfl, rfl⟩⟩
      · rename_i od m a evE heq
        simp only [] at h
        obtain ⟨hr, -⟩ := finallyTail_ok h
        rw [hr]
        refine ⟨fun _ => ⟨?_, ?_⟩, fun hs => absurd hs (by simp)⟩
        · exact validateStep_data_isSome env cfg sn _
            (extractStep_fallback_isSome hfb heq)
        · exact (validateStep_fields _ _ _ _).2.2.1

theorem scrape_result_exactly_one_witness :
    (c4wres.success = true → c4wres.data.isSome = true ∧ c4wres.error = none) ∧
    (c4wres.success = false → c4wres.error.isSome = true ∧ c4wres.data = none) :=
  scrape_result_exactly_one c2env {} m1chain "unknown" warmCache "http://a" 0
    "p" none 1 c4wres rfl rfl

/-- C4 counterexample: with fallback disabled and the direct scrape returning
`None`, the pipeline yields `success = True` with *neither* `data` nor `error`
populated — the claimed "exactly one" invariant fails. -/
theorem scrape_result_neither_field_populated :
    (scrape_with_semaphore c4env c4cfg [] "unknown" (CacheState.mk false [])
      "http://x" 0 "p" none 1).1.toOption.map
      (fun r => (r.success, r.data, r.error)) = some (true, none, none) := rfl

/-! ## Theorems about metrics-write failures (C8) -/

theorem finallyTail_fail {env : ScrapeEnv} {r : BatchResult} {url prompt : String}
    {sn : Option String} {index total : Nat} {m : String}
    (hm : env.metricsFail = some m) :
    (finallyTail env r url prompt sn index total).1 = .error m := by
  unfold finallyTail
  rw [hm]

/-- C8 (amended): a failure of the metrics write (`MetricsDB.log_scrape`
raising) is *not* swallowed: the `finally`-block call is unguarded, so the
exception propagates out of the per-item pipeline; under
`continue_on_error=true`, `process_batch` then converts the item — even an
otherwise successful one — into a failed `BatchResult` carrying the metrics
error message. -/
theorem metrics_failure_propagates
    (env : ScrapeEnv) (cfg : BatchConfig) (chain : List ModelConfig) (gm : String)
    (cache : CacheState) (url : String) (index : Nat) (prompt : String)
    (sn : Option String) (total : Nat) (m : String)
    (hm : env.metricsFail = some m) (ht : env.timesOut = false)
    (hco : cfg.continue_on_error = true) :
    (scrape_with_semaphore env cfg chain gm cache url index prompt sn total).1 =
      .error m ∧
    process_batch (fun _ => env) (fun _ => cache) cfg chain gm [url] prompt sn =
      .ok [{ url := url, index := 0, success := false, error := some m,
             execution_time := 0 }] := by
  have hfail : ∀ (idx tot : Nat),
      (scrape_with_semaphore env cfg chain gm cache url idx prompt sn tot).1 =
        .error m := by
    intro idx tot
    unfold scrape_with_semaphore
    rw [ht]
    simp only [Bool.false_eq_true, if_false]
    unfold scrape_single
    simp only []
    split
    · exact finallyTail_fail hm
    · split
      · exact finallyTail_fail hm
      · exact finallyTail_fail hm
  refine ⟨hfail index total, ?_⟩
  have h1 : taskOutcomes (fun _ => env) (fun _ => cache) cfg chain gm [url]
      prompt sn = [.error m] := by
    unfold taskOutcomes
    simp only [List.enum, List.enumFrom, List.map]
    rw [hfail 0 ([url].length)]
  unfold process_batch
  rw [h1, hco]
  simp only [List.isEmpty_cons, Bool.false_eq_true, if_false, if_true]
  rfl

theorem metrics_failure_propagates_witness :
    (scrape_with_semaphore c8env {} m1chain "unknown" emptyCache "http://a" 0 "p"
      none 1).1 = .error "disk full" ∧
    process_batch (fun _ => c8env) (fun _ => emptyCache) {} m1chain "unknown"
      ["http://a"] "p" none =
      .ok [{ url := "http://a", index := 0, success := false,
             error := some "disk full", execution_time := 0 }] :=
  metrics_failure_propagates c8env {} m1chain "unknown" emptyCache "http://a" 0
    "p" none 1 "disk full" rfl rfl rfl

/-- C8 counterexample: a warm-cache pipeline (a cache hit, the pipeline's
well-formed success path) whose metrics write raises ends in an exception
escaping the pipeline; the same pipeline with a healthy metrics store succeeds
— so the metrics failure turned an otherwise successful item into a failure,
contradicting the claim that it is logged and swallowed. -/
theorem metrics_failure_fails_successful_item :
    (scrape_with_semaphore c8env {} m1chain "unknown" warmCache "http://a" 0 "p"
      none 1).1 = .error "disk full" ∧
    (scrape_with_semaphore c8envOk {} m1chain "unknown" warmCache "http://a" 0 "p"
      none 1).1.toOption.map (fun r => (r.success, r.cached)) =
      some (true, true) ∧
    process_batch (fun _ => c8env) (fun _ => warmCache) {} m1chain "unknown"
      ["http://a"] "p" none =
      .ok [{ url := "http://a", index := 0, success := false,
             error := some "disk full", execution_time := 0 }] :=
  ⟨rfl, rfl, rfl⟩

/-! ## Theorems about progress reporting (C3) -/

/-- C3 (code observation): for a one-item batch answered from the cache, the
progress callback fires **twice** — once in the cache-hit branch and once more
from the `finally` block — and both invocations pass `index + 1` (here `1`),
not a completed-items count. A 1-item batch therefore sees 2 invocations with
the non-strictly-increasing value sequence `[1, 1]`, contradicting the claimed
"exactly once per item, strictly increasing 1..N". -/
theorem progress_callback_double_fire_on_cache_hit :
    progressEvents (scrape_with_semaphore c2env {} m1chain "unknown" warmCache
      "http://a" 0 "p" none 1).2.2 =
      [(1, 1, "http://a"), (1, 1, "http://a")] ∧
    (progressEvents (scrape_with_semaphore c2env {} m1chain "unknown" warmCache
      "http://a" 0 "p" none 1).2.2).length = 2 :=
  ⟨rfl, rfl⟩

/-! ## Theorems about cache idempotence (C5) -/

theorem dataTruthy_elim {od : Option Data} (h : dataTruthy od = true) :
    ∃ d, od = some d ∧ d.isEmpty = false := by
  cases od with
  | none => simp [dataTruthy] at h
  | some d => exact ⟨d, rfl, by simpa [dataTruthy] using h⟩

theorem scrape_single_hit {env : ScrapeEnv} {cfg : BatchConfig}
    {chain : List ModelConfig} {gm : String} {cache : CacheState}
    {url prompt : String} {index total : Nat} {sn : Option String} {d : Data}
    (hhit : cacheHitCheck cfg cache chain url prompt sn = some d)
    (hm : env.metricsFail = none) :
    (scrape_single env cfg chain gm cache url index prompt sn total).1 =
      .ok { url := url, index := index, success := true, data := some d,
            error := none, execution_time := env.now,
            model_used := some (cacheKeyModel chain), fallback_attempts := 0,
            cached := true, validation_passed := none } ∧
    (scrape_single env cfg chain gm cache url index prompt sn total).2.1 = cache ∧
    (scrape_single env cfg chain gm cache url index prompt sn total).2.2.countP
      isExtractCall = 0 := by
  unfold scrape_single
  rw [hhit]
  unfold finallyTail
  rw [hm]
  refine ⟨rfl, rfl, ?_⟩
  simp [isExtractCall, List.countP_cons]

/-- C5 counterexample: chain `[m1]`, `graph_config` model `"beta"`,
`use_fallback=False` (the only step-3 path whose extractor call is
well-formed), empty enabled cache. The first run succeeds with
`model_used = "beta"` and writes the cache under `beta`'s key, yet the second
identical run is *not* served from the cache (`cached = false`) and invokes
the extractor again — because the lookup key uses the primary chain model
`m1` while the write key used `beta`. Moreover, with the default
`use_fallback=True` the first run cannot succeed at all: the fallback
invocation raises the positional-argument `TypeError` before any model is
attempted, so the claim's "succeeded via a non-primary model of the fallback
chain" scenario is unreachable. -/
theorem cache_not_idempotent_key_mismatch :
    ((scrape_with_semaphore c2env directOnlyCfg m1chain "beta" emptyCache
        "http://a" 0 "p" none 1).1.toOption.map
        fun r => (r.success, r.cached, r.model_used)) =
      some (true, false, some "beta") ∧
    ((scrape_with_semaphore c2env directOnlyCfg m1chain "beta"
        (scrape_with_semaphore c2env directOnlyCfg m1chain "beta" emptyCache
          "http://a" 0 "p" none 1).2.1
        "http://a" 0 "p" none 1).1.toOption.map fun r => (r.success, r.cached)) =
      some (true, false) ∧
    ((scrape_with_semaphore c2env directOnlyCfg m1chain "beta"
        (scrape_with_semaphore c2env directOnlyCfg m1chain "beta" emptyCache
          "http://a" 0 "p" none 1).2.1
        "http://a" 0 "p" none 1).2.2.countP isExtractCall) = 1 ∧
    ((scrape_with_semaphore c2env {} m1chain "beta" emptyCache "http://a" 0 "p"
        none 1).1.toOption.map fun r => (r.success, r.error)) =
      some (false, some FALLBACK_CALL_TYPE_ERROR) :=
  ⟨rfl, rfl, rfl, rfl⟩

theorem scrape_single_miss_ok {env : ScrapeEnv} {cfg : BatchConfig}
    {chain : List ModelConfig} {gm : String} {cache : CacheState}
    {url prompt : String} {index total : Nat} {sn : Option String}
    {od : Option Data} {m : String} {a : Nat} {evE : List Event}
    (hmiss : cacheHitCheck cfg cache chain url prompt sn = none)
    (hext : extractStep env cfg chain gm = (.ok (od, m, a), evE))
    (hmf : env.metricsFail = none) :
    (scrape_single env cfg chain gm cache url index prompt sn total).1 =
      .ok { validateStep env cfg sn
              { url := url, index := index, data := od, model_used := some m,
                fallback_attempts := a } with
            success := true, execution_time := env.now } ∧
    (scrape_single env cfg chain gm cache url index prompt sn total).2.1 =
      (cacheWriteStep cfg cache url prompt m sn
        (validateStep env cfg sn
          { url := url, index := index, data := od, model_used := some m,
            fallback_attempts := a })).1 := by
  unfold scrape_single
  rw [hmiss, hext]
  unfold finallyTail
  rw [hmf]
  exact ⟨rfl, rfl⟩

theorem scrape_single_miss_error {env : ScrapeEnv} {cfg : BatchConfig}
    {chain : List ModelConfig} {gm : String} {cache : CacheState}
    {url prompt : String} {index total : Nat} {sn : Option String}
    {e : String} {evE : List Event}
    (hmiss : cacheHitCheck cfg cache chain url prompt sn = none)
    (hext : extractStep env cfg chain gm = (.error e, evE))
    (hmf : env.metricsFail = none) :
    (scrape_single env cfg chain gm cache url index prompt sn total).1 =
      .ok { url := url, index := index, success := false, error := some e,
            execution_time := env.now } := by
  unfold scrape_single
  rw [hmiss, hext]
  unfold finallyTail
  rw [hmf]

theorem scrape_single_ok_metrics {env : ScrapeEnv} {cfg : BatchConfig}
    {chain : List ModelConfig} {gm : String} {cache : CacheState}
    {url prompt : String} {index total : Nat} {sn : Option String}
    {r : BatchResult}
    (h : (scrape_single env cfg chain gm cache url index prompt sn total).1 =
      .ok r) : env.metricsFail = none := by
  unfold scrape_single at h
  simp only [] at h
  split at h
  · exact (finallyTail_ok h).2
  · split at h
    · exact (finallyTail_ok h).2
    · exact (finallyTail_ok h).2

/-- C5 (amended): the second identical run is served from the cache with zero
further extractor invocations *provided the first run succeeded with
`model_used` equal to the cache-read key model* (`fallback_chain[0].name`, or
`"unknown"` for an empty chain; the write key uses `result.model_used`, so the
keys only coincide in that case) and its payload was truthy and caching was
enabled. In the source such a first-run success is reachable only via a cache
hit or via `use_fallback=False` with the `graph_config` model equal to the
primary chain name — with `use_fallback=True` the first run never succeeds
non-cached at all, since the fallback invocation raises `TypeError`; the
claim's "succeeded via a non-primary model" scenario is unreachable. -/
theorem cache_idempotent_primary_model
    (env : ScrapeEnv) (cfg : BatchConfig) (chain : List ModelConfig) (gm : String)
    (cache : CacheState) (url prompt : String) (sn : Option String)
    (index total : Nat) (r1 : BatchResult)
    (hc : cfg.use_cache = true) (hen : cache.enabled = true)
    (h1 : (scrape_with_semaphore env cfg chain gm cache url index prompt sn
      total).1 = .ok r1)
    (hs : r1.success = true)
    (hm : r1.model_used = some (cacheKeyModel chain))
    (hd : dataTruthy r1.data = true) :
    ((scrape_with_semaphore env cfg chain gm
        (scrape_with_semaphore env cfg chain gm cache url index prompt sn
          total).2.1
        url index prompt sn total).1.toOption.map fun r => (r.cached, r.success)) =
      some (true, true) ∧
    ((scrape_with_semaphore env cfg chain gm
        (scrape_with_semaphore env cfg chain gm cache url index prompt sn
          total).2.1
        url index prompt sn total).2.2.countP isExtractCall) = 0 := by
  cases hto : env.timesOut with
  | true =>
    exfalso
    unfold scrape_with_semaphore at h1
    rw [hto] at h1
    simp only [if_true] at h1
    split at h1
    · simp at h1
    · simp only [Except.ok.injEq] at h1
      rw [← h1] at hs
      simp at hs
  | false =>
    have hw : ∀ (c : CacheState),
        scrape_with_semaphore env cfg chain gm c url index prompt sn total =
          scrape_single env cfg chain gm c url index prompt sn total := by
      intro c
      unfold scrape_with_semaphore
      rw [hto]
      simp
    rw [hw] at h1
    simp only [hw]
    have hmf : env.metricsFail = none := scrape_single_ok_metrics h1
    rcases hhit : cacheHitCheck cfg cache chain url prompt sn with _ | d
    · -- first run was a cache miss
      rcases hres : extractStep env cfg chain gm with ⟨res, evE⟩
      rcases res with e | ⟨od, m, a⟩
      · exfalso
        rw [scrape_single_miss_error hhit hres hmf] at h1
        simp only [Except.ok.injEq] at h1
        rw [← h1] at hs
        simp at hs
      · have hms := @scrape_single_miss_ok env cfg chain gm cache url prompt
          index total sn _ _ _ _ hhit hres hmf
        rw [hms.1] at h1
        simp only [Except.ok.injEq] at h1
        have hmu : r1.model_used = some m := by
          rw [← h1]
          exact (validateStep_fields _ _ _ _).2.2.2.2.2.1
        have hm' : m = cacheKeyModel chain := by
          rw [hmu] at hm
          exact Option.some.inj hm
        have hdd : dataTruthy (validateStep env cfg sn
            { url := url, index := index, data := od, model_used := some m,
              fallback_attempts := a }).data = true := by
          rw [← h1] at hd
          exact hd
        obtain ⟨d2, hod2, hne2⟩ := dataTruthy_elim hdd
        have hwr : (scrape_single env cfg chain gm cache url index prompt sn
            total).2.1 =
            { cache with
              store := (make_key url prompt m (schemaOrNone sn), d2) ::
                cache.store } := by
          rw [hms.2]
          unfold cacheWriteStep
          rw [hod2]
          simp only [hc, hen, dataTruthy, hne2, Bool.not_false, Bool.and_self,
            Bool.true_and, Bool.and_true, if_true]
          unfold cacheSet
          rw [hen]
          simp
        rw [hwr]
        have hhit2 : cacheHitCheck cfg
            { cache with
              store := (make_key url prompt m (schemaOrNone sn), d2) ::
                cache.store }
            chain url prompt sn = some d2 := by
          unfold cacheHitCheck cacheGet storeLookup
          rw [hc, hm']
          simp only [hen, Bool.and_self, if_true, if_pos rfl]
          simp [hne2]
        have hsecond := @scrape_single_hit env cfg chain gm _ url prompt
          index total sn _ hhit2 hmf
        refine ⟨?_, hsecond.2.2⟩
        rw [hsecond.1]
        rfl
    · -- first run was itself a cache hit: the cache is unchanged
      have hfirst := @scrape_single_hit env cfg chain gm cache url prompt
        index total sn _ hhit hmf
      rw [hfirst.2.1]
      refine ⟨?_, (@scrape_single_hit env cfg chain gm cache url prompt
        index total sn _ hhit hmf).2.2⟩
      rw [(@scrape_single_hit env cfg chain gm cache url prompt
        index total sn _ hhit hmf).1]
      rfl

theorem cache_idempotent_primary_model_witness :
    ((scrape_with_semaphore c2env directOnlyCfg m1chain "m1"
        (scrape_with_semaphore c2env directOnlyCfg m1chain "m1" emptyCache
          "http://a" 0 "p" none 1).2.1
        "http://a" 0 "p" none 1).1.toOption.map fun r => (r.cached, r.success)) =
      some (true, true) ∧
    ((scrape_with_semaphore c2env directOnlyCfg m1chain "m1"
        (scrape_with_semaphore c2env directOnlyCfg m1chain "m1" emptyCache
          "http://a" 0 "p" none 1).2.1
        "http://a" 0 "p" none 1).2.2.countP isExtractCall) = 0 :=
  cache_idempotent_primary_model c2env directOnlyCfg m1chain "m1" emptyCache
    "http://a" "p" none 0 1 c5wres rfl rfl rfl rfl rfl rfl

end Scrapouille
